import Mathlib

/-!
Shallow embedding of the hotel-management web application's core logic
(booking lifecycle, session restoration, route gating, maintenance
requests, food ordering).  Statuses are modelled as strings, mirroring
the TypeScript string unions; dates are modelled as integer day indices
(the UI works with date-only strings at day granularity); millisecond
timestamps are `day * msPerDay`.  Each event handler is embedded as a
pure function from its inputs (including explicit success/failure flags
for each remote call, since the client treats the backend as an oracle)
to the resulting state and the list of remote calls it issued.
-/

namespace Hotel

/-- A row of the `bookings` collection (src/lib/supabase.ts, `Booking`).
`check_in`/`check_out`/`created_at` are day indices. -/
structure Booking where
  id : Nat
  room_id : Nat
  guest_id : Nat
  check_in : Int
  check_out : Int
  status : String
  created_at : Int
  total_price : Int
  deriving Repr, DecidableEq

/-- A row of the `rooms` collection (src/lib/supabase.ts, `Room`);
only the fields the embedded handlers touch. -/
structure Room where
  id : Nat
  number : String
  price_per_night : Int
  capacity : Nat
  status : String
  deriving Repr, DecidableEq

/-- The remote store's state as seen through the gateway. -/
structure DB where
  bookings : List Booking
  rooms : List Room
  deriving Repr, DecidableEq

/-- `supabase.from('bookings').update(\x7b status \x7d).eq('id', bookingId)`. -/
def updateBookingStatus (db : DB) (bookingId : Nat) (status : String) : DB :=
  { db with
    bookings := db.bookings.map fun b =>
      if b.id = bookingId then { b with status := status } else b }

/-- `supabase.from('rooms').update(\x7b status \x7d).eq('id', roomId)`. -/
def updateRoomStatus (db : DB) (roomId : Nat) (status : String) : DB :=
  { db with
    rooms := db.rooms.map fun r =>
      if r.id = roomId then { r with status := status } else r }

/-- Look up a booking row by id. -/
def findBooking (db : DB) (id : Nat) : Option Booking :=
  db.bookings.find? fun b => b.id == id

/-- Look up a room row by id. -/
def findRoom (db : DB) (id : Nat) : Option Room :=
  db.rooms.find? fun r => r.id == id

/-- Status of the booking row with the given id, if present. -/
def bookingStatus (db : DB) (id : Nat) : Option String :=
  (findBooking db id).map (·.status)

/-- Status of the room row with the given id, if present. -/
def roomStatus (db : DB) (id : Nat) : Option String :=
  (findRoom db id).map (·.status)

/-- One remote write issued by the admin BookRequests screen. -/
inductive AdminCall where
  | updBooking (id : Nat) (status : String)
  | updRoom (id : Nat) (status : String)
  deriving Repr, DecidableEq

/-- Whether an admin call is a write to the `rooms` collection. -/
def AdminCall.isRoomUpdate : AdminCall → Bool
  | .updRoom _ _ => true
  | _ => false

/-- Outcome of `handleRequestAction`: resulting store state, whether the
catch block ran (an error was surfaced), and the remote calls issued. -/
structure ActionResult where
  db : DB
  errored : Bool
  calls : List AdminCall
  deriving Repr, DecidableEq

/-- `BookRequests.handleRequestAction` (src/pages/admin/BookRequests):
update the booking's status; if approving, look the booking up in the
fetched `requests` state and update its room to `occupied`.  `bookingOk`
and `roomOk` say whether each remote update succeeds; a failed call
leaves the store unchanged and aborts the handler via `throw`. -/
def handleRequestAction (db : DB) (requests : List Booking) (bookingId : Nat)
    (status : String) (bookingOk roomOk : Bool) : ActionResult :=
  if !bookingOk then
    { db := db, errored := true, calls := [.updBooking bookingId status] }
  else
    let db1 := updateBookingStatus db bookingId status
    if status = "approved" then
      match requests.find? (fun r => r.id == bookingId) with
      | some booking =>
        if !roomOk then
          { db := db1, errored := true,
            calls := [.updBooking bookingId status,
                      .updRoom booking.room_id "occupied"] }
        else
          { db := updateRoomStatus db1 booking.room_id "occupied",
            errored := false,
            calls := [.updBooking bookingId status,
                      .updRoom booking.room_id "occupied"] }
      | none =>
        { db := db1, errored := false, calls := [.updBooking bookingId status] }
    else
      { db := db1, errored := false, calls := [.updBooking bookingId status] }

lemma find?_map_status_booking (l : List Booking) (bid : Nat) (s : String) :
    (l.map fun b => if b.id = bid then { b with status := s } else b).find?
        (fun b => b.id == bid)
      = (l.find? fun b => b.id == bid).map fun b => { b with status := s } := by
  induction l with
  | nil => rfl
  | cons hd tl ih =>
    by_cases h : hd.id = bid
    · simp [List.find?_cons, h, -List.find?_map]
    · have hb : (hd.id == bid) = false := by simpa using h
      simp [List.find?_cons, h, hb, ih, -List.find?_map]

lemma find?_map_status_room (l : List Room) (rid : Nat) (s : String) :
    (l.map fun r => if r.id = rid then { r with status := s } else r).find?
        (fun r => r.id == rid)
      = (l.find? fun r => r.id == rid).map fun r => { r with status := s } := by
  induction l with
  | nil => rfl
  | cons hd tl ih =>
    by_cases h : hd.id = rid
    · simp [List.find?_cons, h, -List.find?_map]
    · have hb : (hd.id == rid) = false := by simpa using h
      simp [List.find?_cons, h, hb, ih, -List.find?_map]

lemma bookingStatus_updateBookingStatus (db : DB) (bid : Nat) (s : String)
    (h : (findBooking db bid).isSome) :
    bookingStatus (updateBookingStatus db bid s) bid = some s := by
  rcases Option.isSome_iff_exists.mp h with ⟨b, hb⟩
  unfold bookingStatus findBooking updateBookingStatus at *
  simp only [find?_map_status_booking]
  simp [hb]

lemma roomStatus_updateRoomStatus (db : DB) (rid : Nat) (s : String)
    (h : (findRoom db rid).isSome) :
    roomStatus (updateRoomStatus db rid s) rid = some s := by
  rcases Option.isSome_iff_exists.mp h with ⟨r, hr⟩
  unfold roomStatus findRoom updateRoomStatus at *
  simp only [find?_map_status_room]
  simp [hr]

lemma bookingStatus_updateRoomStatus (db : DB) (rid : Nat) (s : String)
    (bid : Nat) :
    bookingStatus (updateRoomStatus db rid s) bid = bookingStatus db bid := rfl

lemma rooms_updateBookingStatus (db : DB) (bid : Nat) (s : String) :
    (updateBookingStatus db bid s).rooms = db.rooms := rfl

/-- C1: approving a pending booking sets the booking's status to
`approved` and, as a side effect, sets the referenced room's status to
`occupied`; rejecting it sets the booking's status to `rejected`, leaves
the rooms collection untouched and issues no room update. -/
theorem handleRequestAction_approve_reject (db : DB) (requests : List Booking)
    (bid : Nat) (b : Booking)
    (hreq : requests.find? (fun r => r.id == bid) = some b)
    (hb : (findBooking db bid).isSome)
    (hr : (findRoom db b.room_id).isSome) :
    (bookingStatus (handleRequestAction db requests bid "approved" true true).db bid
        = some "approved"
      ∧ roomStatus (handleRequestAction db requests bid "approved" true true).db b.room_id
        = some "occupied")
    ∧ (bookingStatus (handleRequestAction db requests bid "rejected" true true).db bid
        = some "rejected"
      ∧ (handleRequestAction db requests bid "rejected" true true).db.rooms = db.rooms
      ∧ ∀ c ∈ (handleRequestAction db requests bid "rejected" true true).calls,
          c.isRoomUpdate = false) := by
  have hr1 : (findRoom (updateBookingStatus db bid "approved") b.room_id).isSome := hr
  have happ : handleRequestAction db requests bid "approved" true true
      = { db := updateRoomStatus (updateBookingStatus db bid "approved") b.room_id "occupied",
          errored := false,
          calls := [.updBooking bid "approved", .updRoom b.room_id "occupied"] } := by
    simp [handleRequestAction, hreq]
  have hrej : handleRequestAction db requests bid "rejected" true true
      = { db := updateBookingStatus db bid "rejected", errored := false,
          calls := [.updBooking bid "rejected"] } := by
    simp [handleRequestAction]
  refine ⟨⟨?_, ?_⟩, ?_, ?_, ?_⟩
  · rw [happ]
    show bookingStatus (updateRoomStatus (updateBookingStatus db bid "approved")
        b.room_id "occupied") bid = some "approved"
    rw [bookingStatus_updateRoomStatus]
    exact bookingStatus_updateBookingStatus db bid "approved" hb
  · rw [happ]
    exact roomStatus_updateRoomStatus _ b.room_id "occupied" hr1
  · rw [hrej]
    exact bookingStatus_updateBookingStatus db bid "rejected" hb
  · rw [hrej]
    rfl
  · rw [hrej]
    intro c hc
    simp only [List.mem_singleton] at hc
    subst hc
    rfl

/-- Witness for C1 at a concrete store: one pending booking `1` for room
`101`, room `101` available. -/
theorem handleRequestAction_approve_reject_witness :
    (([(⟨1, 101, 7, 10, 12, "pending", 0, 200⟩ : Booking)].find? (fun r => r.id == 1)
        = some (⟨1, 101, 7, 10, 12, "pending", 0, 200⟩ : Booking))
      ∧ (findBooking ⟨[⟨1, 101, 7, 10, 12, "pending", 0, 200⟩],
            [⟨101, "101", 100, 2, "available"⟩]⟩ 1).isSome
      ∧ (findRoom ⟨[⟨1, 101, 7, 10, 12, "pending", 0, 200⟩],
            [⟨101, "101", 100, 2, "available"⟩]⟩ 101).isSome)
    ∧ ((bookingStatus (handleRequestAction
          ⟨[⟨1, 101, 7, 10, 12, "pending", 0, 200⟩], [⟨101, "101", 100, 2, "available"⟩]⟩
          [⟨1, 101, 7, 10, 12, "pending", 0, 200⟩] 1 "approved" true true).db 1
          = some "approved"
        ∧ roomStatus (handleRequestAction
          ⟨[⟨1, 101, 7, 10, 12, "pending", 0, 200⟩], [⟨101, "101", 100, 2, "available"⟩]⟩
          [⟨1, 101, 7, 10, 12, "pending", 0, 200⟩] 1 "approved" true true).db 101
          = some "occupied")
      ∧ (bookingStatus (handleRequestAction
          ⟨[⟨1, 101, 7, 10, 12, "pending", 0, 200⟩], [⟨101, "101", 100, 2, "available"⟩]⟩
          [⟨1, 101, 7, 10, 12, "pending", 0, 200⟩] 1 "rejected" true true).db 1
          = some "rejected"
        ∧ (handleRequestAction
          ⟨[⟨1, 101, 7, 10, 12, "pending", 0, 200⟩], [⟨101, "101", 100, 2, "available"⟩]⟩
          [⟨1, 101, 7, 10, 12, "pending", 0, 200⟩] 1 "rejected" true true).db.rooms
          = [⟨101, "101", 100, 2, "available"⟩]
        ∧ ∀ c ∈ (handleRequestAction
          ⟨[⟨1, 101, 7, 10, 12, "pending", 0, 200⟩], [⟨101, "101", 100, 2, "available"⟩]⟩
          [⟨1, 101, 7, 10, 12, "pending", 0, 200⟩] 1 "rejected" true true).calls,
            c.isRoomUpdate = false)) :=
  ⟨⟨by decide, by decide, by decide⟩,
    handleRequestAction_approve_reject
      ⟨[⟨1, 101, 7, 10, 12, "pending", 0, 200⟩], [⟨101, "101", 100, 2, "available"⟩]⟩
      [⟨1, 101, 7, 10, 12, "pending", 0, 200⟩] 1
      ⟨1, 101, 7, 10, 12, "pending", 0, 200⟩
      (by decide) (by decide) (by decide)⟩

/-- C2: the approve transition is two separate remote calls; when the
room update fails after the booking update succeeded, the handler
surfaces an error, the booking stays `approved`, the rooms collection is
unchanged, and exactly the two calls were issued — no rollback or
compensating write follows the failing room update. -/
theorem handleRequestAction_room_failure (db : DB) (requests : List Booking)
    (bid : Nat) (b : Booking)
    (hreq : requests.find? (fun r => r.id == bid) = some b)
    (hb : (findBooking db bid).isSome) :
    (handleRequestAction db requests bid "approved" true false).errored = true
    ∧ bookingStatus (handleRequestAction db requests bid "approved" true false).db bid
        = some "approved"
    ∧ (handleRequestAction db requests bid "approved" true false).db.rooms = db.rooms
    ∧ (handleRequestAction db requests bid "approved" true false).calls
        = [.updBooking bid "approved", .updRoom b.room_id "occupied"] := by
  have hfail : handleRequestAction db requests bid "approved" true false
      = { db := updateBookingStatus db bid "approved", errored := true,
          calls := [.updBooking bid "approved", .updRoom b.room_id "occupied"] } := by
    simp [handleRequestAction, hreq]
  refine ⟨?_, ?_, ?_, ?_⟩
  · rw [hfail]
  · rw [hfail]
    exact bookingStatus_updateBookingStatus db bid "approved" hb
  · rw [hfail]
    rfl
  · rw [hfail]

/-- Witness for C2 at the same concrete store as C1's witness. -/
theorem handleRequestAction_room_failure_witness :
    (([(⟨1, 101, 7, 10, 12, "pending", 0, 200⟩ : Booking)].find? (fun r => r.id == 1)
        = some (⟨1, 101, 7, 10, 12, "pending", 0, 200⟩ : Booking))
      ∧ (findBooking ⟨[⟨1, 101, 7, 10, 12, "pending", 0, 200⟩],
            [⟨101, "101", 100, 2, "available"⟩]⟩ 1).isSome)
    ∧ ((handleRequestAction
          ⟨[⟨1, 101, 7, 10, 12, "pending", 0, 200⟩], [⟨101, "101", 100, 2, "available"⟩]⟩
          [⟨1, 101, 7, 10, 12, "pending", 0, 200⟩] 1 "approved" true false).errored = true
      ∧ bookingStatus (handleRequestAction
          ⟨[⟨1, 101, 7, 10, 12, "pending", 0, 200⟩], [⟨101, "101", 100, 2, "available"⟩]⟩
          [⟨1, 101, 7, 10, 12, "pending", 0, 200⟩] 1 "approved" true false).db 1
          = some "approved"
      ∧ (handleRequestAction
          ⟨[⟨1, 101, 7, 10, 12, "pending", 0, 200⟩], [⟨101, "101", 100, 2, "available"⟩]⟩
          [⟨1, 101, 7, 10, 12, "pending", 0, 200⟩] 1 "approved" true false).db.rooms
          = [⟨101, "101", 100, 2, "available"⟩]
      ∧ (handleRequestAction
          ⟨[⟨1, 101, 7, 10, 12, "pending", 0, 200⟩], [⟨101, "101", 100, 2, "available"⟩]⟩
          [⟨1, 101, 7, 10, 12, "pending", 0, 200⟩] 1 "approved" true false).calls
          = [.updBooking 1 "approved", .updRoom 101 "occupied"]) :=
  ⟨⟨by decide, by decide⟩,
    handleRequestAction_room_failure
      ⟨[⟨1, 101, 7, 10, 12, "pending", 0, 200⟩], [⟨101, "101", 100, 2, "available"⟩]⟩
      [⟨1, 101, 7, 10, 12, "pending", 0, 200⟩] 1
      ⟨1, 101, 7, 10, 12, "pending", 0, 200⟩
      (by decide) (by decide)⟩

/-- The row returned by an
`.order('check_in_date', descending).limit(1).single()` query: an
element with maximal `check_in`, `none` on an empty result set. -/
def pickLatestCheckIn : List Booking → Option Booking
  | [] => none
  | b :: rest =>
    match pickLatestCheckIn rest with
    | none => some b
    | some c => if c.check_in ≤ b.check_in then some b else some c

/-- The active-booking query shared by `BookRoom.checkActiveBooking`,
`MyRoom` and `FoodOrder.handleCheckout`: the guest's bookings with
`status = 'approved'` and `check_out_date >= today`, ordered by
`check_in_date` descending, limited to one row. -/
def activeBookingQuery (bookings : List Booking) (guestId : Nat) (today : Int) :
    Option Booking :=
  pickLatestCheckIn (bookings.filter fun b =>
    b.guest_id == guestId && b.status == "approved" && decide (today ≤ b.check_out))

/-- `BookRoom.checkActiveBooking`: `true` when the query found a row (the
page then renders the already-booked screen and offers no new booking
attempt); `false` when it found none (the page fetches available rooms
and the booking form is offered). -/
def checkActiveBooking (bookings : List Booking) (guestId : Nat) (today : Int) :
    Bool :=
  (activeBookingQuery bookings guestId today).isSome

lemma pickLatestCheckIn_isSome (l : List Booking) :
    (pickLatestCheckIn l).isSome = true ↔ l ≠ [] := by
  induction l with
  | nil => simp [pickLatestCheckIn]
  | cons b rest ih =>
    simp only [pickLatestCheckIn]
    cases h : pickLatestCheckIn rest with
    | none => simp
    | some c => by_cases hc : c.check_in ≤ b.check_in <;> simp [hc]

/-- C3 counterexample: guest `7` holds a `pending` booking whose
`check_out` is on or after today (`5`), yet the booking page's pre-check
does not detect it and the new booking attempt is not blocked. -/
theorem checkActiveBooking_pending_not_blocked :
    (⟨1, 101, 7, 10, 12, "pending", 0, 200⟩ : Booking).status = "pending"
    ∧ (5 : Int) ≤ (⟨1, 101, 7, 10, 12, "pending", 0, 200⟩ : Booking).check_out
    ∧ checkActiveBooking [⟨1, 101, 7, 10, 12, "pending", 0, 200⟩] 7 5 = false := by
  refine ⟨rfl, by decide, ?_⟩
  decide

/-- C3 amended: the booking page's pre-check blocks a new booking attempt
exactly when the guest already holds an `approved` booking with
`check_out >= today`; a `pending` booking is not detected by the
pre-check and does not prevent a new attempt. -/
theorem checkActiveBooking_iff (bookings : List Booking) (g : Nat) (today : Int) :
    checkActiveBooking bookings g today = true ↔
      ∃ b ∈ bookings, b.guest_id = g ∧ b.status = "approved" ∧ today ≤ b.check_out := by
  unfold checkActiveBooking activeBookingQuery
  rw [pickLatestCheckIn_isSome]
  constructor
  · intro h
    obtain ⟨b, hb⟩ := List.exists_mem_of_ne_nil _ h
    have hmem := List.mem_filter.mp hb
    refine ⟨b, hmem.1, ?_⟩
    have hp := hmem.2
    simp only [Bool.and_eq_true, beq_iff_eq, decide_eq_true_eq] at hp
    exact ⟨hp.1.1, hp.1.2, hp.2⟩
  · rintro ⟨b, hbmem, hg, hs, hco⟩
    intro hnil
    have hbf : b ∈ bookings.filter (fun b =>
        b.guest_id == g && b.status == "approved" && decide (today ≤ b.check_out)) :=
      List.mem_filter.mpr ⟨hbmem, by simp [hg, hs, hco]⟩
    rw [hnil] at hbf
    exact absurd hbf (List.not_mem_nil b)

/-- Milliseconds per day, `1000 * 60 * 60 * 24`; `Date.getTime()` of a
date-only string at day index `d` is `d * msPerDay`. -/
def msPerDay : Int := 1000 * 60 * 60 * 24

/-- `BookRoom.calculateTotalPrice`: `pricePerNight * nights` with
`nights = Math.ceil((end.getTime() - start.getTime()) / (1000*60*60*24))`;
arguments are millisecond timestamps and `Math.ceil` is the ceiling of
the exact rational quotient. -/
def calculateTotalPrice (pricePerNight : Int) (startMs endMs : Int) : Int :=
  pricePerNight * ⌈((endMs - startMs : Int) : ℚ) / ((msPerDay : Int) : ℚ)⌉

/-- A remote call issued by the guest BookRoom screen.  `insertBookingRow`
stands for a direct insert into the `bookings` collection; the screen
never issues it — booking creation goes through the `book_room` RPC. -/
inductive GuestCall where
  | rpcBookRoom (p_room_id p_guest_id : Nat) (p_check_in_date p_check_out_date : Int)
      (p_number_of_guests : Nat) (p_total_price : Int)
  | selectAvailableRooms
  | insertBookingRow
  deriving Repr, DecidableEq

/-- Whether a guest call is the `book_room` RPC. -/
def GuestCall.isBookRoomRpc : GuestCall → Bool
  | .rpcBookRoom .. => true
  | _ => false

/-- Whether a guest call is a direct insert into `bookings`. -/
def GuestCall.isBookingsInsert : GuestCall → Bool
  | .insertBookingRow => true
  | _ => false

/-- Outcome of `handleBookRoom`: whether an error path was taken, and the
remote calls issued. -/
structure BookAttempt where
  failed : Bool
  calls : List GuestCall
  deriving Repr, DecidableEq

/-- `BookRoom.handleBookRoom`: reject empty dates, then check-in not
strictly before check-out, then a party larger than the room's capacity —
each with an error and no remote call; otherwise call the `book_room`
RPC with the six parameters; on RPC success refresh the available-room
list, on RPC error stop (the success banner is modelled as
`failed := false`). -/
def handleBookRoom (room : Room) (guestId : Nat)
    (checkInDate checkOutDate : Option Int) (numberOfGuests : Nat)
    (rpcOk : Bool) : BookAttempt :=
  match checkInDate, checkOutDate with
  | none, _ => { failed := true, calls := [] }
  | some _, none => { failed := true, calls := [] }
  | some cin, some cout =>
    if cout ≤ cin then { failed := true, calls := [] }
    else if room.capacity < numberOfGuests then { failed := true, calls := [] }
    else
      let call := GuestCall.rpcBookRoom room.id guestId cin cout numberOfGuests
        (calculateTotalPrice room.price_per_night (cin * msPerDay) (cout * msPerDay))
      if rpcOk then { failed := false, calls := [call, .selectAvailableRooms] }
      else { failed := true, calls := [call] }

/-- C4: with valid inputs the handler issues exactly one `book_room` RPC
carrying the six parameters `p_room_id`, `p_guest_id`, `p_check_in_date`,
`p_check_out_date`, `p_number_of_guests`, `p_total_price`; it never
inserts into `bookings` directly; and when the RPC returns an error the
trace is exactly that single call — no retry follows. -/
theorem handleBookRoom_single_rpc (room : Room) (g : Nat) (cin cout : Int)
    (n : Nat) (rpcOk : Bool)
    (hdate : cin < cout) (hcap : n ≤ room.capacity) :
    ((handleBookRoom room g (some cin) (some cout) n rpcOk).calls.countP
        (·.isBookRoomRpc) = 1
      ∧ GuestCall.rpcBookRoom room.id g cin cout n
          (calculateTotalPrice room.price_per_night (cin * msPerDay) (cout * msPerDay))
          ∈ (handleBookRoom room g (some cin) (some cout) n rpcOk).calls)
    ∧ (∀ c ∈ (handleBookRoom room g (some cin) (some cout) n rpcOk).calls,
        c.isBookingsInsert = false)
    ∧ (rpcOk = false →
        (handleBookRoom room g (some cin) (some cout) n rpcOk).calls
          = [GuestCall.rpcBookRoom room.id g cin cout n
              (calculateTotalPrice room.price_per_night (cin * msPerDay)
                (cout * msPerDay))]) := by
  have h1 : ¬ cout ≤ cin := not_le.mpr hdate
  have h2 : ¬ room.capacity < n := not_lt.mpr hcap
  cases rpcOk with
  | false =>
    simp only [handleBookRoom, if_neg h1, if_neg h2, Bool.false_eq_true, if_false]
    refine ⟨⟨?_, ?_⟩, ?_, ?_⟩
    · rfl
    · simp
    · intro c hc
      simp only [List.mem_singleton] at hc
      subst hc
      rfl
    · intro _
      trivial
  | true =>
    simp only [handleBookRoom, if_neg h1, if_neg h2, if_true]
    refine ⟨⟨?_, ?_⟩, ?_, ?_⟩
    · rfl
    · simp
    · intro c hc
      simp only [List.mem_cons, List.not_mem_nil, or_false] at hc
      rcases hc with hc | hc <;> subst hc <;> rfl
    · intro h
      exact absurd h (by decide)

/-- Witness for C4: room `101` (capacity 2), guest `7`, days `10 → 12`,
party of 2, RPC returning an error. -/
theorem handleBookRoom_single_rpc_witness :
    ((10 : Int) < 12 ∧ 2 ≤ (⟨101, "101", 100, 2, "available"⟩ : Room).capacity)
    ∧ (((handleBookRoom ⟨101, "101", 100, 2, "available"⟩ 7 (some 10) (some 12) 2
          false).calls.countP (·.isBookRoomRpc) = 1
        ∧ GuestCall.rpcBookRoom 101 7 10 12 2
            (calculateTotalPrice 100 (10 * msPerDay) (12 * msPerDay))
            ∈ (handleBookRoom ⟨101, "101", 100, 2, "available"⟩ 7 (some 10) (some 12) 2
                false).calls)
      ∧ (∀ c ∈ (handleBookRoom ⟨101, "101", 100, 2, "available"⟩ 7 (some 10) (some 12) 2
            false).calls, c.isBookingsInsert = false)
      ∧ (false = false →
          (handleBookRoom ⟨101, "101", 100, 2, "available"⟩ 7 (some 10) (some 12) 2
            false).calls
            = [GuestCall.rpcBookRoom 101 7 10 12 2
                (calculateTotalPrice 100 (10 * msPerDay) (12 * msPerDay))])) :=
  ⟨⟨by decide, by decide⟩,
    handleBookRoom_single_rpc ⟨101, "101", 100, 2, "available"⟩ 7 10 12 2 false
      (by decide) (by decide)⟩

/-- C10: for day-granularity dates with check-in strictly before
check-out, the number of nights — the ceiling of the millisecond
difference divided into whole days — equals the day difference and is at
least 1, and the total sent to `book_room` is `price_per_night` times
it; when check-in is not strictly before check-out the handler rejects
with an error before issuing any remote call. -/
theorem calculateTotalPrice_nights (room : Room) (g : Nat)
    (cin cout : Int) (n : Nat) (rpcOk : Bool) :
    (cin < cout →
      (⌈((cout * msPerDay - cin * msPerDay : Int) : ℚ) / ((msPerDay : Int) : ℚ)⌉
          = cout - cin
        ∧ 1 ≤ cout - cin
        ∧ calculateTotalPrice room.price_per_night (cin * msPerDay) (cout * msPerDay)
            = room.price_per_night * (cout - cin)))
    ∧ (¬ cin < cout →
        (handleBookRoom room g (some cin) (some cout) n rpcOk).failed = true
        ∧ (handleBookRoom room g (some cin) (some cout) n rpcOk).calls = []) := by
  have hms : ((msPerDay : Int) : ℚ) ≠ 0 := by norm_num [msPerDay]
  have hquot : ((cout * msPerDay - cin * msPerDay : Int) : ℚ) / ((msPerDay : Int) : ℚ)
      = ((cout - cin : Int) : ℚ) := by
    push_cast
    field_simp
    ring
  constructor
  · intro hlt
    refine ⟨?_, by omega, ?_⟩
    · rw [hquot, Int.ceil_intCast]
    · unfold calculateTotalPrice
      rw [hquot, Int.ceil_intCast]
  · intro hge
    have h1 : cout ≤ cin := not_lt.mp hge
    constructor
    · simp only [handleBookRoom, if_pos h1]
    · simp only [handleBookRoom, if_pos h1]

/-- Witness for C10: nights and total for days `10 → 12` at price `100`,
and the rejected attempt for the reversed pair `12 → 10`. -/
theorem calculateTotalPrice_nights_witness :
    ((10 : Int) < 12
      ∧ calculateTotalPrice 100 (10 * msPerDay) (12 * msPerDay) = 100 * (12 - 10))
    ∧ (¬ (12 : Int) < 10
      ∧ (handleBookRoom (⟨101, "101", 100, 2, "available"⟩ : Room) 7 (some 12) (some 10)
          2 true).calls = []) :=
  ⟨⟨by decide,
      ((calculateTotalPrice_nights ⟨101, "101", 100, 2, "available"⟩ 7 10 12 2 true).1
        (by decide)).2.2⟩,
    ⟨by decide,
      ((calculateTotalPrice_nights ⟨101, "101", 100, 2, "available"⟩ 7 12 10 2 true).2
        (by decide)).2⟩⟩

/-- Result of a remote auth/data call: success with a payload, or an
error carrying an HTTP-like status and whether its message contains
`'Invalid Refresh Token'`. -/
inductive RemoteResult (α : Type) where
  | ok (val : α)
  | err (status : Nat) (invalidRefreshMsg : Bool)
  deriving Repr, DecidableEq

/-- A `profiles` row: identity plus the stored role. -/
structure Profile where
  id : Nat
  role : String
  deriving Repr, DecidableEq

/-- Outcome of `getUser`: the restored user's profile (if any), whether
`localStorage.removeItem('hotel_auth_token')` ran, and whether the
remote session was revoked via `auth.signOut()`. -/
structure GetUserResult where
  user : Option Profile
  tokenRemoved : Bool
  remoteSignOut : Bool
  deriving Repr, DecidableEq

/-- `supabase.ts getUser`: restore the session from the persisted token.
`stored` says whether `hotel_auth_token` exists in localStorage;
`sessionRes` is `auth.getSession()` (payload: whether a session is
present); `userRes` is `auth.getUser()` (payload: the identity, if any);
`profileRes` is the `profiles` select for an identity.  The thrown
profile error is caught at the bottom, which removes the token and signs
out only on a 401 status or an invalid-refresh-token message. -/
def getUser (stored : Bool)
    (sessionRes : RemoteResult (Option Unit))
    (userRes : RemoteResult (Option Nat))
    (profileRes : Nat → RemoteResult Profile) : GetUserResult :=
  if !stored then { user := none, tokenRemoved := false, remoteSignOut := false }
  else
    match sessionRes with
    | .err _ _ => { user := none, tokenRemoved := true, remoteSignOut := false }
    | .ok none => { user := none, tokenRemoved := true, remoteSignOut := false }
    | .ok (some _) =>
      match userRes with
      | .err _ _ => { user := none, tokenRemoved := true, remoteSignOut := false }
      | .ok none => { user := none, tokenRemoved := false, remoteSignOut := false }
      | .ok (some uid) =>
        match profileRes uid with
        | .ok p => { user := some p, tokenRemoved := false, remoteSignOut := false }
        | .err status invalidRefresh =>
          if status = 401 ∨ invalidRefresh = true then
            { user := none, tokenRemoved := true, remoteSignOut := true }
          else
            { user := none, tokenRemoved := false, remoteSignOut := false }

/-- C5 counterexample: a persisted token is present and validates
(session and identity fetch succeed), but the profile fetch fails with a
plain server error (status 500, no invalid-refresh-token message):
`getUser` yields an unauthenticated result yet the persisted token is
not removed from client storage. -/
theorem getUser_profile_error_keeps_token :
    (getUser true (.ok (some ())) (.ok (some 7)) (fun _ => .err 500 false)).user = none
    ∧ (getUser true (.ok (some ())) (.ok (some 7))
        (fun _ => .err 500 false)).tokenRemoved = false := by
  constructor <;> rfl

/-- C5 amended: with a persisted token, successful validation and profile
fetch yield the authenticated user with its stored profile (role
included) and the token is kept; a session error, a missing session or
an identity-fetch error removes the token and yields an unauthenticated
result; a profile-fetch error yields an unauthenticated result but
removes the token exactly when the error is a 401 or carries an
invalid-refresh-token message. -/
theorem getUser_restoration (uid : Nat) (p : Profile) (st : Nat) (inv : Bool)
    (userRes : RemoteResult (Option Nat))
    (profileRes : Nat → RemoteResult Profile)
    (hp : profileRes uid = .ok p) :
    ((getUser true (.ok (some ())) (.ok (some uid)) profileRes).user = some p
      ∧ (getUser true (.ok (some ())) (.ok (some uid)) profileRes).tokenRemoved = false)
    ∧ (∀ s i, (getUser true (.err s i) userRes profileRes).user = none
        ∧ (getUser true (.err s i) userRes profileRes).tokenRemoved = true)
    ∧ ((getUser true (.ok none) userRes profileRes).user = none
        ∧ (getUser true (.ok none) userRes profileRes).tokenRemoved = true)
    ∧ (∀ s i, (getUser true (.ok (some ())) (.err s i) profileRes).user = none
        ∧ (getUser true (.ok (some ())) (.err s i) profileRes).tokenRemoved = true)
    ∧ ((getUser true (.ok (some ())) (.ok (some uid)) (fun _ => .err st inv)).user = none
        ∧ ((getUser true (.ok (some ())) (.ok (some uid))
              (fun _ => .err st inv)).tokenRemoved
            = decide (st = 401 ∨ inv = true))) := by
  refine ⟨⟨?_, ?_⟩, fun s i => ⟨rfl, rfl⟩, ⟨rfl, rfl⟩, fun s i => ⟨rfl, rfl⟩, ?_, ?_⟩
  · simp [getUser, hp]
  · simp [getUser, hp]
  · by_cases h : st = 401 ∨ inv = true <;> simp [getUser, h]
  · by_cases h : st = 401 ∨ inv = true <;> simp [getUser, h]

/-- Witness for C5 (amended) with a concrete guest profile and a plain
500 profile error. -/
theorem getUser_restoration_witness :
    ((fun _ => RemoteResult.ok (⟨7, "guest"⟩ : Profile)) 7
        = RemoteResult.ok (⟨7, "guest"⟩ : Profile))
    ∧ (((getUser true (.ok (some ())) (.ok (some 7))
          (fun _ => .ok (⟨7, "guest"⟩ : Profile))).user = some ⟨7, "guest"⟩
        ∧ (getUser true (.ok (some ())) (.ok (some 7))
            (fun _ => .ok (⟨7, "guest"⟩ : Profile))).tokenRemoved = false)
      ∧ (∀ s i, (getUser true (.err s i) (.ok (some 7))
            (fun _ => .ok (⟨7, "guest"⟩ : Profile))).user = none
          ∧ (getUser true (.err s i) (.ok (some 7))
              (fun _ => .ok (⟨7, "guest"⟩ : Profile))).tokenRemoved = true)
      ∧ ((getUser true (.ok none) (.ok (some 7))
            (fun _ => .ok (⟨7, "guest"⟩ : Profile))).user = none
          ∧ (getUser true (.ok none) (.ok (some 7))
              (fun _ => .ok (⟨7, "guest"⟩ : Profile))).tokenRemoved = true)
      ∧ (∀ s i, (getUser true (.ok (some ())) (.err s i)
            (fun _ => .ok (⟨7, "guest"⟩ : Profile))).user = none
          ∧ (getUser true (.ok (some ())) (.err s i)
              (fun _ => .ok (⟨7, "guest"⟩ : Profile))).tokenRemoved = true)
      ∧ ((getUser true (.ok (some ())) (.ok (some 7)) (fun _ => .err 500 false)).user = none
          ∧ ((getUser true (.ok (some ())) (.ok (some 7))
                (fun _ => .err 500 false)).tokenRemoved
              = decide ((500 : Nat) = 401 ∨ false = true)))) :=
  ⟨rfl, getUser_restoration 7 ⟨7, "guest"⟩ 500 false (.ok (some 7))
    (fun _ => .ok (⟨7, "guest"⟩ : Profile)) rfl⟩

/-- What the `ProtectedRoute` wrapper renders. -/
inductive RouteOutcome where
  | loadingSpinner
  | redirectLogin
  | redirectGuestHome
  | redirectAdminHome
  | renderChildren
  deriving Repr, DecidableEq

/-- `ProtectedRoute` (src/components): route gating as a function of
session state (`loading`, `user`), the user's stored role and the
requested path's protection level (`requireAdmin = true` for admin-only
paths, `false` for guest-only paths). -/
def ProtectedRoute (loading : Bool) (user : Option Profile)
    (requireAdmin : Bool) : RouteOutcome :=
  if loading then .loadingSpinner
  else
    match user with
    | none => .redirectLogin
    | some u =>
      if requireAdmin ∧ u.role ≠ "admin" then .redirectGuestHome
      else if ¬ requireAdmin ∧ u.role = "admin" then .redirectAdminHome
      else .renderChildren

/-- C6: once loading is over, an unauthenticated request to any protected
path redirects to the login screen; an authenticated admin on a
guest-only path redirects to the admin home; an authenticated guest on
an admin-only path redirects to the guest home. -/
theorem ProtectedRoute_gating (requireAdmin : Bool) (p q : Profile)
    (hadmin : p.role = "admin") (hguest : q.role = "guest") :
    ProtectedRoute false none requireAdmin = .redirectLogin
    ∧ ProtectedRoute false (some p) false = .redirectAdminHome
    ∧ ProtectedRoute false (some q) true = .redirectGuestHome := by
  refine ⟨rfl, ?_, ?_⟩
  · simp [ProtectedRoute, hadmin]
  · simp [ProtectedRoute, hguest]

/-- Witness for C6 with a concrete admin and a concrete guest profile. -/
theorem ProtectedRoute_gating_witness :
    ((⟨1, "admin"⟩ : Profile).role = "admin" ∧ (⟨2, "guest"⟩ : Profile).role = "guest")
    ∧ (ProtectedRoute false none true = .redirectLogin
      ∧ ProtectedRoute false (some ⟨1, "admin"⟩) false = .redirectAdminHome
      ∧ ProtectedRoute false (some ⟨2, "guest"⟩) true = .redirectGuestHome) :=
  ⟨⟨rfl, rfl⟩, ProtectedRoute_gating true ⟨1, "admin"⟩ ⟨2, "guest"⟩ rfl rfl⟩

/-- A remote write to the `maintenance_requests` collection. -/
inductive MaintCall where
  | insertRequest (room_id guest_id : Nat) (title description priority status : String)
  | updateRequestStatus (id : Nat) (status : String)
  deriving Repr, DecidableEq

/-- The status value a maintenance-request write stores. -/
def MaintCall.writtenStatus : MaintCall → String
  | .insertRequest _ _ _ _ _ s => s
  | .updateRequestStatus _ s => s

/-- The enumerated maintenance-request statuses (the TS union type
`MaintenanceRequest['status']`). -/
def maintenanceStatuses : List String :=
  ["pending", "in_progress", "completed", "cancelled"]

/-- The `<option>` values of the admin status dropdown
(admin/MaintenanceRequests.tsx), the only source of `newStatus` passed to
`handleUpdateStatus`. -/
def statusSelectOptions : List String :=
  ["pending", "in_progress", "completed", "cancelled"]

/-- The row returned by an `.order('created_at', descending).limit(1)`
query: an element with maximal `created_at`. -/
def pickLatestCreated : List Booking → Option Booking
  | [] => none
  | b :: rest =>
    match pickLatestCreated rest with
    | none => some b
    | some c => if c.created_at ≤ b.created_at then some b else some c

/-- Guest `MaintenanceRequest.handleSubmit`: look up the guest's most
recent approved booking; without one, error out with no write; with one,
insert a request on that room with the form's title, description and
priority and with status `'pending'`. -/
def handleSubmit (bookings : List Booking) (guestId : Nat)
    (title description priority : String) : List MaintCall :=
  match pickLatestCreated (bookings.filter fun b =>
      b.guest_id == guestId && b.status == "approved") with
  | none => []
  | some b => [.insertRequest b.room_id guestId title description priority "pending"]

/-- Admin `MaintenanceRequests.handleUpdateStatus`: one status update on
the given request id with the dropdown's chosen value. -/
def handleUpdateStatus (id : Nat) (newStatus : String) : List MaintCall :=
  [.updateRequestStatus id newStatus]

/-- C7: every maintenance-request status the application writes is in the
enumerated set — guest creation always inserts `'pending'`, and the
admin status update writes the dropdown value, which is always one of
the four enumerated statuses. -/
theorem maintenance_status_writes (bookings : List Booking) (g : Nat)
    (title description priority : String) (id : Nat) (newStatus : String)
    (h : newStatus ∈ statusSelectOptions) :
    (∀ c ∈ handleSubmit bookings g title description priority,
        c.writtenStatus = "pending" ∧ c.writtenStatus ∈ maintenanceStatuses)
    ∧ (∀ c ∈ handleUpdateStatus id newStatus,
        c.writtenStatus ∈ maintenanceStatuses) := by
  constructor
  · intro c hc
    unfold handleSubmit at hc
    cases hm : pickLatestCreated (bookings.filter fun b =>
        b.guest_id == g && b.status == "approved") with
    | none =>
      rw [hm] at hc
      exact absurd hc (List.not_mem_nil c)
    | some b =>
      rw [hm] at hc
      simp only [List.mem_singleton] at hc
      subst hc
      refine ⟨rfl, ?_⟩
      show "pending" ∈ maintenanceStatuses
      decide
  · intro c hc
    simp only [handleUpdateStatus, List.mem_singleton] at hc
    subst hc
    simpa [MaintCall.writtenStatus, maintenanceStatuses, statusSelectOptions] using h

/-- Witness for C7: a concrete approved booking, a high-priority request,
and an admin update to `in_progress`. -/
theorem maintenance_status_writes_witness :
    ("in_progress" ∈ statusSelectOptions)
    ∧ ((∀ c ∈ handleSubmit [⟨1, 101, 7, 10, 12, "approved", 3, 200⟩] 7
          "Leaky tap" "The tap drips" "high",
          c.writtenStatus = "pending" ∧ c.writtenStatus ∈ maintenanceStatuses)
      ∧ (∀ c ∈ handleUpdateStatus 5 "in_progress",
          c.writtenStatus ∈ maintenanceStatuses)) :=
  ⟨by decide,
    maintenance_status_writes [⟨1, 101, 7, 10, 12, "approved", 3, 200⟩] 7
      "Leaky tap" "The tap drips" "high" 5 "in_progress" (by decide)⟩

/-- An entry of the food-order cart: a menu item together with a
quantity and optional special instructions. -/
structure CartItem where
  id : Nat
  price : Int
  quantity : Nat
  special_instructions : Option String
  deriving Repr, DecidableEq

/-- `FoodOrder.updateCartItemQuantity`: quantity `0` removes the item's
entry from the cart; any other quantity replaces the entry's quantity. -/
def updateCartItemQuantity (cart : List CartItem) (itemId : Nat)
    (quantity : Nat) : List CartItem :=
  if quantity = 0 then cart.filter fun item => item.id != itemId
  else cart.map fun item =>
    if item.id = itemId then { item with quantity := quantity } else item

/-- `FoodOrder.calculateTotal`:
`cart.reduce((total, item) => total + item.price * item.quantity, 0)`. -/
def calculateTotal (cart : List CartItem) : Int :=
  cart.foldl (fun total item => total + item.price * (item.quantity : Int)) 0

lemma calculateTotal_eq_sum (cart : List CartItem) :
    calculateTotal cart
      = (cart.map fun item => item.price * (item.quantity : Int)).sum := by
  have key : ∀ (l : List CartItem) (a : Int),
      l.foldl (fun total item => total + item.price * (item.quantity : Int)) a
        = a + (l.map fun item => item.price * (item.quantity : Int)).sum := by
    intro l
    induction l with
    | nil => intro a; simp
    | cons hd tl ih =>
      intro a
      simp only [List.foldl_cons, List.map_cons, List.sum_cons, ih]
      ring
  simpa [calculateTotal] using key cart 0

/-- C9: setting an item's quantity to `0` removes every entry with that
item id from the cart, and the computed total of the resulting cart is
the sum over its remaining entries of price times quantity. -/
theorem cart_zero_quantity_removes (cart : List CartItem) (itemId : Nat) :
    (∀ item ∈ updateCartItemQuantity cart itemId 0, item.id ≠ itemId)
    ∧ calculateTotal (updateCartItemQuantity cart itemId 0)
        = ((updateCartItemQuantity cart itemId 0).map
            fun item => item.price * (item.quantity : Int)).sum := by
  constructor
  · intro item hmem
    unfold updateCartItemQuantity at hmem
    rw [if_pos rfl] at hmem
    have := (List.mem_filter.mp hmem).2
    simpa using this
  · exact calculateTotal_eq_sum _

/-- One line of a `food_orders` insert. -/
structure OrderItem where
  item_id : Nat
  quantity : Nat
  special_instructions : Option String
  deriving Repr, DecidableEq

/-- A remote call issued by `FoodOrder.handleCheckout`. -/
inductive FoodCall where
  | selectActiveBooking (guest_id : Nat) (today : Int)
  | insertFoodOrder (guest_id room_id : Nat) (items : List OrderItem)
      (total_amount : Int) (status payment_status payment_method : String)
  deriving Repr, DecidableEq

/-- Whether a food call is an insert into `food_orders`. -/
def FoodCall.isInsert : FoodCall → Bool
  | .insertFoodOrder .. => true
  | _ => false

/-- The `room_id` an insert into `food_orders` carries. -/
def FoodCall.insertedRoomId : FoodCall → Option Nat
  | .insertFoodOrder _ rid _ _ _ _ _ => some rid
  | _ => none

/-- Outcome of `handleCheckout`: the surfaced error (if any) and the
remote calls issued. -/
structure CheckoutResult where
  errorMsg : Option String
  calls : List FoodCall
  deriving Repr, DecidableEq

/-- `FoodOrder.handleCheckout`: require a signed-in user; query the
guest's active approved booking (status `'approved'`,
`check_out_date >= today`, latest `check_in_date`, single row) —
`queryFails` covers a failed query, and a no-row result also surfaces as
an error through `.single()` (PGRST116), caught by the
`if (bookingsError)` guard; with a booking, insert one `food_orders` row
whose `room_id` is the booking's room, carrying the cart's lines, the
computed total, status `'pending'` and a pending room-charge payment. -/
def handleCheckout (user : Option Nat) (cart : List CartItem)
    (bookings : List Booking) (today : Int) (queryFails insertOk : Bool) :
    CheckoutResult :=
  match user with
  | none => { errorMsg := some "Please sign in to place an order", calls := [] }
  | some uid =>
    if queryFails then
      { errorMsg := some "Could not check your booking status",
        calls := [.selectActiveBooking uid today] }
    else
      match activeBookingQuery bookings uid today with
      | none =>
        { errorMsg := some "Could not check your booking status",
          calls := [.selectActiveBooking uid today] }
      | some b =>
        let ins := FoodCall.insertFoodOrder uid b.room_id
          (cart.map fun item => ⟨item.id, item.quantity, item.special_instructions⟩)
          (calculateTotal cart) "pending" "pending" "room_charge"
        if insertOk then
          { errorMsg := none, calls := [.selectActiveBooking uid today, ins] }
        else
          { errorMsg := some "Failed to place order. Please try again.",
            calls := [.selectActiveBooking uid today, ins] }

/-- C8: with a signed-in guest, a food-order insert carries exactly the
`room_id` of the guest's active approved booking resolved at order time;
when the active-booking lookup fails, or no such booking exists, an
error is surfaced and no `food_orders` insert is issued. -/
theorem handleCheckout_room_resolution (uid : Nat) (cart : List CartItem)
    (bookings : List Booking) (today : Int) (insertOk : Bool) :
    (∀ b, activeBookingQuery bookings uid today = some b →
      (∀ c ∈ (handleCheckout (some uid) cart bookings today false insertOk).calls,
          c.isInsert = true → c.insertedRoomId = some b.room_id)
      ∧ (handleCheckout (some uid) cart bookings today false insertOk).calls.countP
          (·.isInsert) = 1)
    ∧ ((handleCheckout (some uid) cart bookings today true insertOk).errorMsg.isSome
      ∧ ∀ c ∈ (handleCheckout (some uid) cart bookings today true insertOk).calls,
          c.isInsert = false)
    ∧ (activeBookingQuery bookings uid today = none →
        (handleCheckout (some uid) cart bookings today false insertOk).errorMsg.isSome
        ∧ ∀ c ∈ (handleCheckout (some uid) cart bookings today false insertOk).calls,
            c.isInsert = false) := by
  refine ⟨?_, ?_, ?_⟩
  · intro b hq
    have hred : handleCheckout (some uid) cart bookings today false insertOk
        = (if insertOk then
            { errorMsg := none,
              calls := [.selectActiveBooking uid today,
                .insertFoodOrder uid b.room_id
                  (cart.map fun item => ⟨item.id, item.quantity, item.special_instructions⟩)
                  (calculateTotal cart) "pending" "pending" "room_charge"] }
          else
            { errorMsg := some "Failed to place order. Please try again.",
              calls := [.selectActiveBooking uid today,
                .insertFoodOrder uid b.room_id
                  (cart.map fun item => ⟨item.id, item.quantity, item.special_instructions⟩)
                  (calculateTotal cart) "pending" "pending" "room_charge"] }) := by
      simp only [handleCheckout, Bool.false_eq_true, if_false, hq]
    cases insertOk with
    | true =>
      rw [hred, if_pos rfl]
      constructor
      · intro c hc
        simp only [List.mem_cons, List.not_mem_nil, or_false] at hc
        rcases hc with hc | hc <;> subst hc
        · intro h
          exact Bool.noConfusion h
        · intro _
          rfl
      · rfl
    | false =>
      rw [hred, if_neg (by decide)]
      constructor
      · intro c hc
        simp only [List.mem_cons, List.not_mem_nil, or_false] at hc
        rcases hc with hc | hc <;> subst hc
        · intro h
          exact Bool.noConfusion h
        · intro _
          rfl
      · rfl
  · have hred : handleCheckout (some uid) cart bookings today true insertOk
        = { errorMsg := some "Could not check your booking status",
            calls := [.selectActiveBooking uid today] } := rfl
    rw [hred]
    refine ⟨rfl, ?_⟩
    intro c hc
    simp only [List.mem_cons, List.not_mem_nil, or_false] at hc
    subst hc
    rfl
  · intro hq
    have hred : handleCheckout (some uid) cart bookings today false insertOk
        = { errorMsg := some "Could not check your booking status",
            calls := [.selectActiveBooking uid today] } := by
      simp only [handleCheckout, Bool.false_eq_true, if_false, hq]
    rw [hred]
    refine ⟨rfl, ?_⟩
    intro c hc
    simp only [List.mem_cons, List.not_mem_nil, or_false] at hc
    subst hc
    rfl

/-- Witness for C8: guest `7` with an approved booking for room `101`
covering today (`11`), a one-line cart; and the no-booking case for
guest `8`. -/
theorem handleCheckout_room_resolution_witness :
    ((activeBookingQuery [⟨1, 101, 7, 10, 12, "approved", 0, 200⟩] 7 11
        = some ⟨1, 101, 7, 10, 12, "approved", 0, 200⟩)
      ∧ activeBookingQuery [⟨1, 101, 7, 10, 12, "approved", 0, 200⟩] 8 11 = none)
    ∧ ((∀ c ∈ (handleCheckout (some 7) [⟨3, 12, 2, none⟩]
          [⟨1, 101, 7, 10, 12, "approved", 0, 200⟩] 11 false true).calls,
          c.isInsert = true → c.insertedRoomId = some 101)
      ∧ ((handleCheckout (some 8) [⟨3, 12, 2, none⟩]
            [⟨1, 101, 7, 10, 12, "approved", 0, 200⟩] 11 false true).errorMsg.isSome
        ∧ ∀ c ∈ (handleCheckout (some 8) [⟨3, 12, 2, none⟩]
              [⟨1, 101, 7, 10, 12, "approved", 0, 200⟩] 11 false true).calls,
            c.isInsert = false)) :=
  ⟨⟨by decide, by decide⟩,
    ⟨by
      have h := ((handleCheckout_room_resolution 7 [⟨3, 12, 2, none⟩]
          [⟨1, 101, 7, 10, 12, "approved", 0, 200⟩] 11 true).1
          ⟨1, 101, 7, 10, 12, "approved", 0, 200⟩ (by decide)).1
      intro c hc hi
      exact h c hc hi,
    (handleCheckout_room_resolution 8 [⟨3, 12, 2, none⟩]
        [⟨1, 101, 7, 10, 12, "approved", 0, 200⟩] 11 true).2.2 (by decide)⟩⟩

end Hotel
